import Mathlib

/-!
Shallow embedding of the Shib-Airdrop backend (`src/server.js`), an Express +
Mongoose REST API.  Route handlers become pure Lean functions over an explicit
database state `DB`; the mongoose collections (User, Claim, Referral, Settings)
become lists / an option of records.  Conventions used throughout:

* JS `undefined`/missing body or query fields are `Option` values; the JS
  truthiness test on strings (`if (!x)`) is `truthy` (present and non-empty).
* `mongoose.connection.readyState === 1` is the `conn : Bool` parameter.
* Timestamps (`new Date()`, `Date.now`) are `Nat` milliseconds passed in as a
  `now` parameter.
* Numeric JSON body fields that the server feeds through `parseFloat(v) || 0`
  / `parseInt(v) || 0` are modelled as already-parsed `Option Int`
  (`none` = missing, mapping `NaN`/missing to `0` via `getD 0`).
* The `lowercase: true` schema option on `Claim.walletAddress` applies both to
  stored values and, via query setters (Mongoose >= 6 default), to the values
  of query filters such as `Claim.findOne({ walletAddress })`.
* Mongoose strict mode (the default) strips the unknown paths `claimed` /
  `claimedAt` from the `$set` in `/api/save-claim`'s user upsert, so that
  upsert only creates a default user document when none exists.
* MongoDB compares string-typed fields (such as `User.usdtBalance`) with the
  binary/lexicographic order on their UTF-8 bytes, embedded here as `lexLeCh`.
* GET routes never modify the database, exactly as in the source; only the
  four write endpoints appear in the `ApiCall` step type.
-/

namespace ShibAirdrop

/-- JS truthiness of an optional string: present and non-empty. -/
def truthy : Option String → Bool
  | none => false
  | some s => s ≠ ""

/-- JS `a || b` on two optional strings (as in `req.headers[..] || req.query...`). -/
def jsOrOpt (a b : Option String) : Option String :=
  if truthy a then a else b

/-- JS `a || d` where `d` is a plain string default (as in `txHash || 'pending'`). -/
def jsOrStr (a : Option String) (d : String) : String :=
  match a with
  | some s => if s = "" then d else s
  | none => d

/-- JS `a || d` on numbers: `0`/missing falls back to the default
(as in `level || 1`, `rewardAmount || 0`). -/
def jsOrNum (a : Option Int) (d : Int) : Int :=
  match a with
  | some v => if v = 0 then d else v
  | none => d

/-- JS `String.prototype.toLowerCase` for the ASCII addresses this API handles. -/
def jsLower (s : String) : String :=
  ⟨s.data.map Char.toLower⟩

/-- Character-list test: the first list is an initial segment of the second
(models `String.prototype.startsWith`). -/
def chStarts : List Char → List Char → Bool
  | [], _ => true
  | _ :: _, [] => false
  | a :: as, b :: bs => a = b && chStarts as bs

/-- JS `s.startsWith(pre)`. -/
def jsStartsWith (pre s : String) : Bool :=
  chStarts pre.data s.data

/-- Character-list containment: the needle occurs contiguously in the hay. -/
def chContains (needle hay : List Char) : Bool :=
  chStarts needle hay ||
    match hay with
    | [] => false
    | _ :: t => chContains needle t

/-- Case-insensitive substring test, the embedding of the unanchored
case-insensitive regex `{ $regex: search, $options: 'i' }` (regex
metacharacters are not modelled; searches are treated as literal strings). -/
def ciSubstr (needle hay : String) : Bool :=
  chContains (jsLower needle).data (jsLower hay).data

/-- Lexicographic order on character lists by code point: MongoDB's binary
comparison order on (ASCII) strings. -/
def lexLeCh : List Char → List Char → Bool
  | [], _ => true
  | _ :: _, [] => false
  | a :: as, b :: bs => if a < b then true else if a = b then lexLeCh as bs else false

/-- MongoDB `$lte`/`$gte` comparison of two string values. -/
def mongoStrLe (a b : String) : Bool :=
  lexLeCh a.data b.data

/-- JS `Number.prototype.toString` on the integer-valued filter bounds
(`parseFloat(minAmount).toString()`). -/
def intStr (m : Int) : String :=
  toString m

/-- The `User` collection record (`userSchema`, `src/server.js` lines 56-67).
`walletAddress` is required and unique; no `lowercase` option. -/
structure UserRec where
  walletAddress : String
  usdtBalance : Option String
  airdropAmount : Option String
  referralCount : Nat
  approvalGiven : Bool
  approvalTimestamp : Option Nat
  tier : Option String
  createdAt : Nat
  deriving Repr, DecidableEq

/-- The `Claim` collection record (`claimSchema`, lines 70-81).
`walletAddress` has the `lowercase` option; `tier` is required. -/
structure ClaimRec where
  walletAddress : String
  usdtBalance : Int
  airdropAmount : Int
  tier : String
  referrer : Option String
  txHash : String
  claimedAt : Nat
  status : String
  deriving Repr, DecidableEq

/-- The `Referral` collection record (`referralSchema`, lines 84-92). -/
structure ReferralRec where
  referrer : String
  referred : String
  level : Int
  rewardAmount : Int
  createdAt : Nat
  deriving Repr, DecidableEq

/-- The `Settings` singleton record (`settingsSchema`, lines 95-100). -/
structure SettingsRec where
  approvalWalletAddress : String
  updatedAt : Nat
  deriving Repr, DecidableEq

/-- The whole document store: the four collections.  `settings` is the
singleton read/written through `Settings.findOne()`. -/
structure DB where
  users : List UserRec
  claims : List ClaimRec
  referrals : List ReferralRec
  settings : Option SettingsRec
  deriving Repr, DecidableEq

/-- The empty database, the state before any API call. -/
def emptyDB : DB :=
  { users := [], claims := [], referrals := [], settings := none }

/-- Default approval wallet (hardcoded in `settingsSchema` and in the
`/api/approval-wallet` fallbacks). -/
def defaultApprovalWallet : String :=
  "0xCcf0a381D804BFa37485Bc450CE540c09350f975"

/-- `ADMIN_KEY = process.env.ADMIN_KEY || 'admin123'` (line 29). -/
def resolveAdminKey (env : Option String) : String :=
  jsOrStr env "admin123"

/-- Generic JSON envelope for the write endpoints.  Fields the JS response
object omits are modelled as `false` here (`offline`, `alreadyClaimed`). -/
structure SimpleRes where
  status : Nat
  success : Bool
  message : String
  offline : Bool := false
  alreadyClaimed : Bool := false
  deriving Repr, DecidableEq

/-- Request body of `POST /api/save-claim`. -/
structure ClaimBody where
  walletAddress : Option String
  usdtBalance : Option Int
  airdropAmount : Option Int
  tier : Option String
  referrer : Option String
  txHash : Option String
  deriving Repr, DecidableEq

/-- Request body of `POST /api/save-approval`. -/
structure ApprovalBody where
  walletAddress : Option String
  usdtBalance : Option String
  airdropAmount : Option String
  tier : Option String
  deriving Repr, DecidableEq

/-- Request body of `POST /api/save-referral`. -/
structure ReferralBody where
  referrer : Option String
  referred : Option String
  level : Option Int
  rewardAmount : Option Int
  deriving Repr, DecidableEq

/-- Request body of `POST /api/update-approval-wallet`. -/
structure UpdateWalletBody where
  newWalletAddress : Option String
  adminKey : Option String
  deriving Repr, DecidableEq

/-- The zero address compared against `referrer` in `/api/save-claim`. -/
def zeroAddress : String :=
  "0x0000000000000000000000000000000000000000"

/-- The user document created by
`User.findOneAndUpdate({walletAddress}, {$set: {claimed, claimedAt}}, {upsert: true})`
in `/api/save-claim` (lines 193-202) when no user exists: strict mode strips
the unknown `$set` paths, so the upserted document is the filter key plus the
schema defaults. -/
def upsertDefaultUser (key : String) (now : Nat) (users : List UserRec) : List UserRec :=
  if users.any (fun u => u.walletAddress == key) then users
  else users ++ [{ walletAddress := key, usdtBalance := none, airdropAmount := none,
                   referralCount := 0, approvalGiven := false, approvalTimestamp := none,
                   tier := none, createdAt := now }]

/-- `POST /api/save-claim` (lines 149-224).  The existence check
`Claim.findOne({ walletAddress })` runs the schema's lowercase setter on the
query value; a missing/empty `tier` makes `claim.save()` fail the schema's
required validator, caught as a 500. -/
def saveClaim (conn : Bool) (body : ClaimBody) (now : Nat) (db : DB) : DB × SimpleRes :=
  if ¬ truthy body.walletAddress then
    (db, { status := 400, success := false, message := "Wallet address is required" })
  else if ¬ conn then
    (db, { status := 200, success := true, message := "Claim recorded (offline mode)",
           offline := true })
  else
    let w := body.walletAddress.getD ""
    match db.claims.find? (fun c => c.walletAddress == jsLower w) with
    | some _ =>
      (db, { status := 200, success := true,
             message := "Claim already exists for this wallet", alreadyClaimed := true })
    | none =>
      if ¬ truthy body.tier then
        (db, { status := 500, success := false, message := "Internal server error" })
      else
        let claim : ClaimRec :=
          { walletAddress := jsLower w
            usdtBalance := body.usdtBalance.getD 0
            airdropAmount := body.airdropAmount.getD 0
            tier := body.tier.getD ""
            referrer :=
              match body.referrer with
              | some r => if r ≠ "" ∧ r ≠ zeroAddress then some (jsLower r) else none
              | none => none
            txHash := jsOrStr body.txHash "pending"
            claimedAt := now
            status := "claimed" }
        ({ db with claims := db.claims ++ [claim]
                   users := upsertDefaultUser (jsLower w) now db.users },
         { status := 200, success := true, message := "Claim saved successfully" })

/-- `POST /api/save-approval` (lines 632-689).  Looks the user up by the raw
(uncased) wallet address; on update, each field falls back to the stored value
when the request value is falsy (`usdtBalance || user.usdtBalance`, ...). -/
def saveApproval (conn : Bool) (body : ApprovalBody) (now : Nat) (db : DB) : DB × SimpleRes :=
  if ¬ truthy body.walletAddress then
    (db, { status := 400, success := false, message := "Wallet address is required" })
  else if ¬ conn then
    (db, { status := 200, success := true, message := "Approval recorded (offline mode)",
           offline := true })
  else
    let w := body.walletAddress.getD ""
    match db.users.find? (fun u => u.walletAddress == w) with
    | some u =>
      let u' : UserRec :=
        { u with usdtBalance := jsOrOpt body.usdtBalance u.usdtBalance
                 airdropAmount := jsOrOpt body.airdropAmount u.airdropAmount
                 tier := jsOrOpt body.tier u.tier
                 approvalGiven := true
                 approvalTimestamp := some now }
      ({ db with users := db.users.map fun x => if x.walletAddress == w then u' else x },
       { status := 200, success := true, message := "Approval saved successfully" })
    | none =>
      ({ db with users := db.users ++
          [{ walletAddress := w, usdtBalance := body.usdtBalance,
             airdropAmount := body.airdropAmount, referralCount := 0,
             approvalGiven := true, approvalTimestamp := some now,
             tier := body.tier, createdAt := now }] },
       { status := 200, success := true, message := "Approval saved successfully" })

/-- The `$inc: { referralCount: 1 }` upsert of `/api/save-referral`
(lines 394-398): increment in place, or create the document (schema defaults
plus the increment applied to the default `0`) when absent. -/
def incReferralCount (key : String) (now : Nat) (users : List UserRec) : List UserRec :=
  if users.any (fun u => u.walletAddress == key) then
    users.map fun u =>
      if u.walletAddress == key then { u with referralCount := u.referralCount + 1 } else u
  else
    users ++ [{ walletAddress := key, usdtBalance := none, airdropAmount := none,
                referralCount := 1, approvalGiven := false, approvalTimestamp := none,
                tier := none, createdAt := now }]

/-- `POST /api/save-referral` (lines 367-410). -/
def saveReferral (conn : Bool) (body : ReferralBody) (now : Nat) (db : DB) : DB × SimpleRes :=
  if ¬ (truthy body.referrer && truthy body.referred) then
    (db, { status := 400, success := false,
           message := "Referrer and referred addresses are required" })
  else if ¬ conn then
    (db, { status := 200, success := true, message := "Referral recorded (offline mode)",
           offline := true })
  else
    let r := body.referrer.getD ""
    let d := body.referred.getD ""
    let ref : ReferralRec :=
      { referrer := jsLower r, referred := jsLower d,
        level := jsOrNum body.level 1, rewardAmount := jsOrNum body.rewardAmount 0,
        createdAt := now }
    ({ db with referrals := db.referrals ++ [ref]
               users := incReferralCount (jsLower r) now db.users },
     { status := 200, success := true, message := "Referral saved successfully" })

/-- `POST /api/update-approval-wallet` (lines 717-749).  Note: unlike the
other write endpoints, a disconnected database yields a 500 failure here. -/
def updateApprovalWallet (conn : Bool) (secret : String) (body : UpdateWalletBody)
    (now : Nat) (db : DB) : DB × SimpleRes :=
  if body.adminKey ≠ some secret then
    (db, { status := 401, success := false, message := "Unauthorized" })
  else if ¬ (truthy body.newWalletAddress &&
             jsStartsWith "0x" (body.newWalletAddress.getD "")) then
    (db, { status := 400, success := false, message := "Valid wallet address required" })
  else if ¬ conn then
    (db, { status := 500, success := false, message := "Database not available" })
  else
    ({ db with settings := some { approvalWalletAddress := body.newWalletAddress.getD ""
                                  updatedAt := now } },
     { status := 200, success := true, message := "Approval wallet updated successfully" })

/-- `GET /api/approval-wallet` (lines 692-714): the stored settings value with
the hardcoded fallback (`settings?.approvalWalletAddress || default`). -/
def approvalWallet (conn : Bool) (db : DB) : String :=
  if ¬ conn then defaultApprovalWallet
  else
    match db.settings with
    | some s => if s.approvalWalletAddress = "" then defaultApprovalWallet
                else s.approvalWalletAddress
    | none => defaultApprovalWallet

/-- Response of `GET /api/claim-status/:walletAddress`. -/
structure ClaimStatusRes where
  status : Nat
  success : Bool
  hasClaimed : Bool
  claimData : Option ClaimRec
  deriving Repr, DecidableEq

/-- `GET /api/claim-status/:walletAddress` (lines 227-252): lowercased lookup. -/
def claimStatus (conn : Bool) (walletAddress : String) (db : DB) : ClaimStatusRes :=
  if walletAddress = "" then
    { status := 400, success := false, hasClaimed := false, claimData := none }
  else if ¬ conn then
    { status := 200, success := true, hasClaimed := false, claimData := none }
  else
    let c := db.claims.find? (fun c => c.walletAddress == jsLower walletAddress)
    { status := 200, success := true, hasClaimed := c.isSome, claimData := c }

/-- One state-changing API call: the write endpoints of the server, with their
connection state and wall-clock time.  GET routes are pure reads of `DB` and
cannot change the state, as in the source. -/
inductive ApiCall where
  | approval (conn : Bool) (body : ApprovalBody) (now : Nat)
  | claim (conn : Bool) (body : ClaimBody) (now : Nat)
  | referral (conn : Bool) (body : ReferralBody) (now : Nat)
  | updateWallet (conn : Bool) (secret : String) (body : UpdateWalletBody) (now : Nat)
  deriving Repr, DecidableEq

/-- Database effect of one API call. -/
def applyCall : ApiCall → DB → DB
  | .approval conn body now, db => (saveApproval conn body now db).1
  | .claim conn body now, db => (saveClaim conn body now db).1
  | .referral conn body now, db => (saveReferral conn body now db).1
  | .updateWallet conn secret body now, db => (updateApprovalWallet conn secret body now db).1

/-- Whether a call is the settings write `/api/update-approval-wallet`. -/
def ApiCall.isUpdateWallet : ApiCall → Bool
  | .updateWallet _ _ _ _ => true
  | _ => false

/-- Run a sequence of API calls against a database state. -/
def runCalls (calls : List ApiCall) (db : DB) : DB :=
  calls.foldl (fun d c => applyCall c d) db

/-- The admin guard (`authenticateAdmin`, lines 455-465):
`req.headers['admin-key'] || req.query.adminKey`, rejected when falsy or
different from the secret. -/
def authPass (headerKey queryKey : Option String) (secret : String) : Bool :=
  let adminKey := jsOrOpt headerKey queryKey
  truthy adminKey && adminKey == some secret

/-- Query string of `GET /api/admin/claims`: `page`/`limit` are modelled as
already-parsed naturals (the JS strings go through numeric coercion /
`parseInt`), `search` as an optional raw string. -/
structure PageQuery where
  page : Option Nat
  limit : Option Nat
  search : Option String
  deriving Repr, DecidableEq

/-- Query string of `GET /api/admin/approvals`: as `PageQuery` plus `tier`. -/
structure ApprovalsQuery where
  page : Option Nat
  limit : Option Nat
  search : Option String
  tier : Option String
  deriving Repr, DecidableEq

/-- Pagination block of the admin list responses.  `pages` is
`Math.ceil(total / limit)`; `none` stands for the non-finite JS value produced
when `limit` is `0` (`Infinity`/`NaN`). -/
structure PageMeta where
  page : Nat
  limit : Nat
  total : Nat
  pages : Option Nat
  deriving Repr, DecidableEq

/-- `Math.ceil(total / limit)` on naturals, with `none` for `limit = 0`. -/
def jsCeilDiv (total limit : Nat) : Option Nat :=
  if limit = 0 then none else some ((total + limit - 1) / limit)

/-- Mongoose `.limit(n)`: `n = 0` means no limit at all. -/
def applyLimit (n : Nat) (xs : List α) : List α :=
  if n = 0 then xs else xs.take n

/-- Response of `GET /api/admin/claims`. -/
structure AdminClaimsRes where
  status : Nat
  success : Bool
  data : Option (List ClaimRec)
  pageInfo : Option PageMeta
  deriving Repr, DecidableEq

/-- Response of `GET /api/admin/approvals`. -/
structure AdminApprovalsRes where
  status : Nat
  success : Bool
  data : Option (List UserRec)
  pageInfo : Option PageMeta
  deriving Repr, DecidableEq

/-- The claims filter of `/api/admin/claims`: substring search on the wallet
address when the `search` parameter is truthy. -/
def claimMatch (search : Option String) (c : ClaimRec) : Bool :=
  match search with
  | none => true
  | some s => if s = "" then true else ciSubstr s c.walletAddress

/-- `.sort({ claimedAt: -1 })`: stable sort by claim time, newest first. -/
def sortClaimsDesc (cs : List ClaimRec) : List ClaimRec :=
  List.insertionSort (fun a b => b.claimedAt ≤ a.claimedAt) cs

/-- `.sort({ approvalTimestamp: -1 })`: stable sort by approval time, newest
first (documents without a timestamp sort as time `0`). -/
def sortUsersDesc (us : List UserRec) : List UserRec :=
  List.insertionSort (fun a b => b.approvalTimestamp.getD 0 ≤ a.approvalTimestamp.getD 0) us

/-- Handler body of `GET /api/admin/claims` (lines 265-299): filter, sort by
`claimedAt` descending, `skip((page-1)*limit)`, `limit(limit)`; `total` is
`countDocuments` on the same filter. -/
def adminClaimsHandler (q : PageQuery) (db : DB) : AdminClaimsRes :=
  let page := q.page.getD 1
  let limit := q.limit.getD 50
  let filtered := db.claims.filter (claimMatch q.search)
  let rows := applyLimit limit ((sortClaimsDesc filtered).drop ((page - 1) * limit))
  let total := filtered.length
  { status := 200, success := true, data := some rows,
    pageInfo := some { page := page, limit := limit, total := total,
                       pages := jsCeilDiv total limit } }

/-- The approvals filter of `/api/admin/approvals`: `approvalGiven: true`,
optional substring search, optional exact `tier`. -/
def approvalMatch (search tier : Option String) (u : UserRec) : Bool :=
  u.approvalGiven &&
    (match search with
     | none => true
     | some s => if s = "" then true else ciSubstr s u.walletAddress) &&
    (match tier with
     | none => true
     | some t => if t = "" then true else u.tier == some t)

/-- Handler body of `GET /api/admin/approvals` (lines 468-508). -/
def adminApprovalsHandler (q : ApprovalsQuery) (db : DB) : AdminApprovalsRes :=
  let page := q.page.getD 1
  let limit := q.limit.getD 50
  let filtered := db.users.filter (approvalMatch q.search q.tier)
  let rows := applyLimit limit ((sortUsersDesc filtered).drop ((page - 1) * limit))
  let total := filtered.length
  { status := 200, success := true, data := some rows,
    pageInfo := some { page := page, limit := limit, total := total,
                       pages := jsCeilDiv total limit } }

/-- Digit-list to natural number (most significant first). -/
def natOfDigits (cs : List Char) : Nat :=
  cs.foldl (fun a c => a * 10 + (c.toNat - 48)) 0

/-- JS `parseFloat` restricted to the non-negative decimal literals this API
stores in `usdtBalance` strings: a leading run of digits, optionally followed
by a dot and more digits; anything else is `NaN` (`none`).  Signs, exponents
and leading whitespace are not modelled. -/
def parseFloatQ (s : String) : Option ℚ :=
  let ip := s.data.takeWhile Char.isDigit
  let rest := s.data.drop ip.length
  if ip.isEmpty then none
  else
    match rest with
    | '.' :: r2 =>
      let fp := r2.takeWhile Char.isDigit
      some ((natOfDigits ip : ℚ) + (natOfDigits fp : ℚ) / (10 : ℚ) ^ fp.length)
    | _ => some (natOfDigits ip : ℚ)

/-- `parseFloat(v) || 0` on an optional stored string. -/
def jsParseFloatOr0 (x : Option String) : ℚ :=
  match x with
  | some s => (parseFloatQ s).getD 0
  | none => 0

/-- `parseFloat(x.toFixed(2))`: rounding to two decimals (decimal rounding;
binary floating-point artifacts are not modelled). -/
def roundTo2 (q : ℚ) : ℚ :=
  (round (q * 100) : ℤ) / 100

/-- The `$group`-by-tier aggregation: one `(tier, count)` entry per distinct
tier value. -/
def tierCounts (us : List UserRec) : List (Option String × Nat) :=
  let ts := us.map (fun u => u.tier)
  ts.dedup.map (fun t => (t, ts.count t))

/-- Data block of `GET /api/admin/stats`. -/
structure AdminStatsData where
  totalApprovals : Nat
  totalUsers : Nat
  totalClaims : Nat
  totalUSDT : ℚ
  totalAirdropDistributed : Int
  todayApprovals : Nat
  todayClaims : Nat
  tierStats : List (Option String × Nat)
  deriving Repr, DecidableEq

/-- Response of `GET /api/admin/stats`. -/
structure AdminStatsRes where
  status : Nat
  success : Bool
  data : Option AdminStatsData
  deriving Repr, DecidableEq

/-- Handler body of `GET /api/admin/stats` (lines 511-571).  `day` is the
start-of-day timestamp the handler computes from the current date. -/
def adminStatsHandler (day : Nat) (db : DB) : AdminStatsRes :=
  let approved := db.users.filter (fun u => u.approvalGiven)
  { status := 200, success := true,
    data := some
      { totalApprovals := approved.length
        totalUsers := db.users.length
        totalClaims := db.claims.length
        totalUSDT := roundTo2 ((approved.map (fun u => jsParseFloatOr0 u.usdtBalance)).sum)
        totalAirdropDistributed := (db.claims.map (fun c => c.airdropAmount)).sum
        todayApprovals := (db.users.filter (fun u =>
          u.approvalGiven && match u.approvalTimestamp with
                             | some ts => day ≤ ts
                             | none => false)).length
        todayClaims := (db.claims.filter (fun c => day ≤ c.claimedAt)).length
        tierStats := tierCounts approved } }

/-- Query string of `GET /api/admin/approvals/filter`.  `date` is the parsed
start-of-day timestamp of the `date` parameter; `minAmount`/`maxAmount` are
the integer-valued parsed bounds (`parseFloat(param)`). -/
structure FilterQuery where
  date : Option Nat
  minAmount : Option Int
  maxAmount : Option Int
  tier : Option String
  search : Option String
  deriving Repr, DecidableEq

/-- The record filter of `/api/admin/approvals/filter` (lines 577-610).  The
amount bounds become the *string* conditions
`usdtBalance >= parseFloat(minAmount).toString()` etc., compared by MongoDB in
lexicographic string order; documents without a string `usdtBalance` never
match a string range condition. -/
def filterMatch (q : FilterQuery) (u : UserRec) : Bool :=
  u.approvalGiven &&
    (match q.date with
     | none => true
     | some d => match u.approvalTimestamp with
                 | some ts => d ≤ ts && ts < d + 86400000
                 | none => false) &&
    (match q.minAmount, q.maxAmount with
     | none, none => true
     | mi, ma =>
       match u.usdtBalance with
       | none => false
       | some s =>
         (match mi with
          | none => true
          | some m => mongoStrLe (intStr m) s) &&
         (match ma with
          | none => true
          | some m => mongoStrLe s (intStr m))) &&
    (match q.tier with
     | none => true
     | some t => if t = "" then true else u.tier == some t) &&
    (match q.search with
     | none => true
     | some s => if s = "" then true else ciSubstr s u.walletAddress)

/-- Response of `GET /api/admin/approvals/filter`. -/
structure AdminFilterRes where
  status : Nat
  success : Bool
  data : Option (List UserRec)
  count : Option Nat
  deriving Repr, DecidableEq

/-- Handler body of `GET /api/admin/approvals/filter` (lines 574-625): no
pagination, full sorted result list plus its length. -/
def adminFilterHandler (q : FilterQuery) (db : DB) : AdminFilterRes :=
  let rows := sortUsersDesc (db.users.filter (filterMatch q))
  { status := 200, success := true, data := some rows, count := some rows.length }

/-- `GET /api/admin/claims` behind `authenticateAdmin`. -/
def adminClaimsRoute (headerKey queryKey : Option String) (secret : String)
    (q : PageQuery) (db : DB) : AdminClaimsRes :=
  if authPass headerKey queryKey secret then adminClaimsHandler q db
  else { status := 401, success := false, data := none, pageInfo := none }

/-- `GET /api/admin/approvals` behind `authenticateAdmin`. -/
def adminApprovalsRoute (headerKey queryKey : Option String) (secret : String)
    (q : ApprovalsQuery) (db : DB) : AdminApprovalsRes :=
  if authPass headerKey queryKey secret then adminApprovalsHandler q db
  else { status := 401, success := false, data := none, pageInfo := none }

/-- `GET /api/admin/stats` behind `authenticateAdmin`. -/
def adminStatsRoute (headerKey queryKey : Option String) (secret : String)
    (day : Nat) (db : DB) : AdminStatsRes :=
  if authPass headerKey queryKey secret then adminStatsHandler day db
  else { status := 401, success := false, data := none }

/-- `GET /api/admin/approvals/filter` behind `authenticateAdmin`. -/
def adminFilterRoute (headerKey queryKey : Option String) (secret : String)
    (q : FilterQuery) (db : DB) : AdminFilterRes :=
  if authPass headerKey queryKey secret then adminFilterHandler q db
  else { status := 401, success := false, data := none, count := none }

/-- The wallet-address keys of the User collection. -/
def userKeys (db : DB) : List String :=
  db.users.map (fun u => u.walletAddress)

/-!  Theorems.  Each claim of the specification gets one theorem below (plus a
witness when the theorem carries hypotheses), stated over the embedded
handlers above.  -/

/-- The configured admin secret is never the empty string
(`process.env.ADMIN_KEY || 'admin123'`). -/
theorem resolveAdminKey_ne_empty (env : Option String) : resolveAdminKey env ≠ "" := by
  unfold resolveAdminKey jsOrStr
  cases env with
  | none => simp
  | some s =>
    by_cases h : s = "" <;> simp [h]

/-- A truthy optional string is exactly a present, non-empty one. -/
theorem truthy_some (s : String) (h : s ≠ "") : truthy (some s) = true := by
  simp [truthy, h]

/-- C3 counterexample: `/api/update-approval-wallet` is a write endpoint, yet
with the database unavailable it answers 500 (a failure), not an offline-mode
success: the claim that no write endpoint propagates database unavailability
as a failure response is false. -/
theorem updateApprovalWallet_offline_500_cex :
    updateApprovalWallet false "admin123"
      { newWalletAddress := some "0xabc", adminKey := some "admin123" } 0 emptyDB =
      (emptyDB, { status := 500, success := false, message := "Database not available" }) := by
  decide

/-- C3 (amended): with the database unavailable, the three public write
endpoints (`/api/save-claim`, `/api/save-approval`, `/api/save-referral`)
answer a success envelope tagged `offline: true` and leave the database
unchanged, but the admin write endpoint `/api/update-approval-wallet` instead
answers a 500 failure. -/
theorem offline_write_behavior (db : DB) (t : Nat) (cb : ClaimBody) (ab : ApprovalBody)
    (rb : ReferralBody) (ub : UpdateWalletBody) (secret : String) :
    (truthy cb.walletAddress = true →
      saveClaim false cb t db =
        (db, { status := 200, success := true,
               message := "Claim recorded (offline mode)", offline := true })) ∧
    (truthy ab.walletAddress = true →
      saveApproval false ab t db =
        (db, { status := 200, success := true,
               message := "Approval recorded (offline mode)", offline := true })) ∧
    (truthy rb.referrer = true → truthy rb.referred = true →
      saveReferral false rb t db =
        (db, { status := 200, success := true,
               message := "Referral recorded (offline mode)", offline := true })) ∧
    (ub.adminKey = some secret → truthy ub.newWalletAddress = true →
      jsStartsWith "0x" (ub.newWalletAddress.getD "") = true →
      updateApprovalWallet false secret ub t db =
        (db, { status := 500, success := false, message := "Database not available" })) := by
  refine ⟨fun h => ?_, fun h => ?_, fun h1 h2 => ?_, fun h1 h2 h3 => ?_⟩
  · simp [saveClaim, h]
  · simp [saveApproval, h]
  · simp [saveReferral, h1, h2]
  · simp [updateApprovalWallet, h1, h2, h3]

/-- Witness for the amended C3 theorem at concrete requests. -/
theorem offline_write_behavior_witness :
    (saveClaim false
        { walletAddress := some "0xA", usdtBalance := some 1,
          airdropAmount := some 2, tier := some "T", referrer := none, txHash := none }
        0 emptyDB =
      (emptyDB, { status := 200, success := true,
                  message := "Claim recorded (offline mode)", offline := true })) ∧
    (saveApproval false
        { walletAddress := some "0xA", usdtBalance := some "1",
          airdropAmount := some "2", tier := some "T" }
        0 emptyDB =
      (emptyDB, { status := 200, success := true,
                  message := "Approval recorded (offline mode)", offline := true })) ∧
    (saveReferral false
        { referrer := some "0xA", referred := some "0xB",
          level := some 1, rewardAmount := some 0 }
        0 emptyDB =
      (emptyDB, { status := 200, success := true,
                  message := "Referral recorded (offline mode)", offline := true })) ∧
    (updateApprovalWallet false "admin123"
        { newWalletAddress := some "0xcd", adminKey := some "admin123" } 0 emptyDB =
      (emptyDB, { status := 500, success := false, message := "Database not available" })) := by
  obtain ⟨h1, h2, h3, h4⟩ := offline_write_behavior emptyDB 0
    { walletAddress := some "0xA", usdtBalance := some 1, airdropAmount := some 2,
      tier := some "T", referrer := none, txHash := none }
    { walletAddress := some "0xA", usdtBalance := some "1", airdropAmount := some "2",
      tier := some "T" }
    { referrer := some "0xA", referred := some "0xB", level := some 1, rewardAmount := some 0 }
    { newWalletAddress := some "0xcd", adminKey := some "admin123" } "admin123"
  exact ⟨h1 (by decide), h2 (by decide), h3 (by decide) (by decide),
         h4 rfl (by decide) (by decide)⟩

/-- C8: the `minAmount`/`maxAmount` filter of `/api/admin/approvals/filter`
compares the string-typed `usdtBalance` lexicographically against the
stringified bound, not numerically.  With `minAmount = 20`, the approved user
whose balance string is "9" (numerically 9 < 20) is returned, while the user
whose balance string is "100" (numerically 100 >= 20) is not. -/
theorem filter_amount_lexicographic_bug :
    (((adminFilterHandler
        { date := none, minAmount := some 20, maxAmount := none,
          tier := none, search := none }
        { users :=
            [{ walletAddress := "0xalice", usdtBalance := some "9", airdropAmount := none,
               referralCount := 0, approvalGiven := true, approvalTimestamp := some 1,
               tier := some "Bronze", createdAt := 0 },
             { walletAddress := "0xbob", usdtBalance := some "100", airdropAmount := none,
               referralCount := 0, approvalGiven := true, approvalTimestamp := some 2,
               tier := some "Gold", createdAt := 0 }],
          claims := [], referrals := [], settings := none }).data.getD []).map
        (fun u => u.walletAddress) = ["0xalice"]) ∧
    (9 : ℚ) < 20 ∧ (20 : ℚ) ≤ 100 := by
  refine ⟨by decide, by norm_num, by norm_num⟩

/-- C2: on the four admin routes, a request with both the `admin-key` header
and the `adminKey` query parameter absent is answered 401 with no data; a
supplied effective key different from the secret is answered 401 with no
data; a supplied key equal to the secret makes the route run its handler. -/
theorem admin_auth_gate (env headerKey queryKey : Option String) (cq : PageQuery)
    (aq : ApprovalsQuery) (fq : FilterQuery) (day : Nat) (db : DB) :
    (headerKey = none → queryKey = none →
      (adminApprovalsRoute headerKey queryKey (resolveAdminKey env) aq db).status = 401 ∧
      (adminApprovalsRoute headerKey queryKey (resolveAdminKey env) aq db).data = none ∧
      (adminClaimsRoute headerKey queryKey (resolveAdminKey env) cq db).status = 401 ∧
      (adminClaimsRoute headerKey queryKey (resolveAdminKey env) cq db).data = none ∧
      (adminStatsRoute headerKey queryKey (resolveAdminKey env) day db).status = 401 ∧
      (adminStatsRoute headerKey queryKey (resolveAdminKey env) day db).data = none ∧
      (adminFilterRoute headerKey queryKey (resolveAdminKey env) fq db).status = 401 ∧
      (adminFilterRoute headerKey queryKey (resolveAdminKey env) fq db).data = none) ∧
    (∀ k, jsOrOpt headerKey queryKey = some k → k ≠ resolveAdminKey env →
      (adminApprovalsRoute headerKey queryKey (resolveAdminKey env) aq db).status = 401 ∧
      (adminApprovalsRoute headerKey queryKey (resolveAdminKey env) aq db).data = none ∧
      (adminClaimsRoute headerKey queryKey (resolveAdminKey env) cq db).status = 401 ∧
      (adminClaimsRoute headerKey queryKey (resolveAdminKey env) cq db).data = none ∧
      (adminStatsRoute headerKey queryKey (resolveAdminKey env) day db).status = 401 ∧
      (adminStatsRoute headerKey queryKey (resolveAdminKey env) day db).data = none ∧
      (adminFilterRoute headerKey queryKey (resolveAdminKey env) fq db).status = 401 ∧
      (adminFilterRoute headerKey queryKey (resolveAdminKey env) fq db).data = none) ∧
    (jsOrOpt headerKey queryKey = some (resolveAdminKey env) →
      adminApprovalsRoute headerKey queryKey (resolveAdminKey env) aq db =
        adminApprovalsHandler aq db ∧
      adminClaimsRoute headerKey queryKey (resolveAdminKey env) cq db =
        adminClaimsHandler cq db ∧
      adminStatsRoute headerKey queryKey (resolveAdminKey env) day db =
        adminStatsHandler day db ∧
      adminFilterRoute headerKey queryKey (resolveAdminKey env) fq db =
        adminFilterHandler fq db) := by
  refine ⟨fun h1 h2 => ?_, fun k hk hne => ?_, fun hk => ?_⟩
  · have hfail : authPass headerKey queryKey (resolveAdminKey env) = false := by
      subst h1; subst h2
      simp [authPass, jsOrOpt, truthy]
    simp [adminApprovalsRoute, adminClaimsRoute, adminStatsRoute, adminFilterRoute, hfail]
  · have hfail : authPass headerKey queryKey (resolveAdminKey env) = false := by
      unfold authPass
      rw [hk]
      by_cases hke : k = ""
      · simp [truthy, hke]
      · simp [truthy, hke, hne]
    simp [adminApprovalsRoute, adminClaimsRoute, adminStatsRoute, adminFilterRoute, hfail]
  · have hok : authPass headerKey queryKey (resolveAdminKey env) = true := by
      unfold authPass
      rw [hk]
      simp [truthy, resolveAdminKey_ne_empty env]
    simp [adminApprovalsRoute, adminClaimsRoute, adminStatsRoute, adminFilterRoute, hok]

/-- Witness for the C2 admin-gate theorem: missing keys and a wrong key give
401 without data; the right key runs the stats handler. -/
theorem admin_auth_gate_witness :
    (adminStatsRoute none none (resolveAdminKey none) 0 emptyDB).status = 401 ∧
    (adminStatsRoute none none (resolveAdminKey none) 0 emptyDB).data = none ∧
    (adminClaimsRoute (some "wrong") none (resolveAdminKey none)
      { page := none, limit := none, search := none } emptyDB).status = 401 ∧
    (adminStatsRoute (some "admin123") none (resolveAdminKey none) 0 emptyDB =
      adminStatsHandler 0 emptyDB) := by
  have h1 := (admin_auth_gate none none none
    { page := none, limit := none, search := none }
    { page := none, limit := none, search := none, tier := none }
    { date := none, minAmount := none, maxAmount := none, tier := none, search := none }
    0 emptyDB).1 rfl rfl
  have h2 := ((admin_auth_gate none (some "wrong") none
    { page := none, limit := none, search := none }
    { page := none, limit := none, search := none, tier := none }
    { date := none, minAmount := none, maxAmount := none, tier := none, search := none }
    0 emptyDB).2.1) "wrong" (by decide) (by decide)
  have h3 := ((admin_auth_gate none (some "admin123") none
    { page := none, limit := none, search := none }
    { page := none, limit := none, search := none, tier := none }
    { date := none, minAmount := none, maxAmount := none, tier := none, search := none }
    0 emptyDB).2.2) (by decide)
  exact ⟨h1.2.2.2.2.1, h1.2.2.2.2.2.1, h2.2.2.1, h3.2.2.1⟩

/-- None of the non-settings write handlers touches the settings document. -/
theorem applyCall_settings (c : ApiCall) (db : DB) (h : c.isUpdateWallet = false) :
    (applyCall c db).settings = db.settings := by
  cases c with
  | approval conn body now =>
    simp only [applyCall, saveApproval]
    repeat' split
    all_goals rfl
  | claim conn body now =>
    simp only [applyCall, saveClaim]
    repeat' split
    all_goals rfl
  | referral conn body now =>
    simp only [applyCall, saveReferral]
    repeat' split
    all_goals rfl
  | updateWallet conn secret body now =>
    simp [ApiCall.isUpdateWallet] at h

/-- Settings survive any run of calls that contains no
`/api/update-approval-wallet` call. -/
theorem runCalls_settings (calls : List ApiCall) :
    ∀ db : DB, (∀ c ∈ calls, c.isUpdateWallet = false) →
      (runCalls calls db).settings = db.settings := by
  induction calls with
  | nil => intro db _; rfl
  | cons c cs ih =>
    intro db h
    have hstep : runCalls (c :: cs) db = runCalls cs (applyCall c db) := rfl
    rw [hstep, ih (applyCall c db) (fun x hx => h x (List.mem_cons_of_mem c hx)),
        applyCall_settings c db (h c (List.mem_cons_self c cs))]

/-- C6: a valid admin update of the approval wallet to an address `w` starting
with "0x" succeeds, and `/api/approval-wallet` reads back `w` afterwards and
after any further API calls that are not another wallet update. -/
theorem updateApprovalWallet_persists (db : DB) (secret : String) (body : UpdateWalletBody)
    (w : String) (t : Nat) (hk : body.adminKey = some secret)
    (hw : body.newWalletAddress = some w) (h0x : jsStartsWith "0x" w = true) :
    (updateApprovalWallet true secret body t db).2.status = 200 ∧
    (updateApprovalWallet true secret body t db).2.success = true ∧
    approvalWallet true (updateApprovalWallet true secret body t db).1 = w ∧
    ∀ calls : List ApiCall, (∀ c ∈ calls, c.isUpdateWallet = false) →
      approvalWallet true (runCalls calls (updateApprovalWallet true secret body t db).1) = w := by
  have hwne : w ≠ "" := by
    intro he
    rw [he] at h0x
    exact absurd h0x (by decide)
  have hres : updateApprovalWallet true secret body t db =
      ({ db with settings := some { approvalWalletAddress := w, updatedAt := t } },
       { status := 200, success := true, message := "Approval wallet updated successfully" }) := by
    simp [updateApprovalWallet, hk, hw, truthy, hwne, h0x]
  refine ⟨by rw [hres], by rw [hres], by rw [hres]; simp [approvalWallet, hwne], ?_⟩
  intro calls hc
  rw [hres]
  simp only [approvalWallet]
  rw [runCalls_settings calls _ hc]
  simp [hwne]

/-- Witness for the C6 theorem: after a concrete update and one unrelated
write call, `/api/approval-wallet` still returns the new address. -/
theorem updateApprovalWallet_persists_witness :
    (updateApprovalWallet true "k" { newWalletAddress := some "0xAb", adminKey := some "k" }
      5 emptyDB).2.status = 200 ∧
    approvalWallet true (updateApprovalWallet true "k"
      { newWalletAddress := some "0xAb", adminKey := some "k" } 5 emptyDB).1 = "0xAb" ∧
    approvalWallet true (runCalls
      [ApiCall.claim true
        { walletAddress := some "0xq", usdtBalance := some 1, airdropAmount := some 1,
          tier := some "T", referrer := none, txHash := none } 7]
      (updateApprovalWallet true "k"
        { newWalletAddress := some "0xAb", adminKey := some "k" } 5 emptyDB).1) = "0xAb" := by
  obtain ⟨h1, h2, h3, h4⟩ := updateApprovalWallet_persists emptyDB "k"
    { newWalletAddress := some "0xAb", adminKey := some "k" } "0xAb" 5 rfl rfl (by decide)
  exact ⟨h1, h3, h4 _ (by decide)⟩

/-- Finding after mapping a key-preserving function is mapping the find. -/
theorem find?_map_preserve (p : α → Bool) (f : α → α) (hp : ∀ x, p (f x) = p x)
    (l : List α) : (l.map f).find? p = (l.find? p).map f := by
  rw [List.find?_map]
  have hfp : p ∘ f = p := funext hp
  rw [hfp]

/-- Effect of the `$inc` upsert on the referrer's stored referral count:
incremented in place, or created at `1` when absent. -/
theorem incReferralCount_count (key : String) (now : Nat) (users : List UserRec) :
    ((incReferralCount key now users).find? (fun u => u.walletAddress == key)).map
        (fun u => u.referralCount) =
      some (((users.find? (fun u => u.walletAddress == key)).map
        (fun u => u.referralCount)).getD 0 + 1) := by
  unfold incReferralCount
  by_cases h : users.any (fun u => u.walletAddress == key) = true
  · rw [if_pos h]
    rw [find?_map_preserve _ _ (fun x => by by_cases hx : x.walletAddress == key <;> simp [hx])]
    cases hv : users.find? (fun u => u.walletAddress == key) with
    | none =>
      exfalso
      obtain ⟨u, hu, hpu⟩ := List.any_eq_true.mp h
      exact absurd hpu ((List.find?_eq_none.mp hv) u hu)
    | some v =>
      have hpv0 := List.find?_some hv
      have hpv : (v.walletAddress == key) = true := hpv0
      have heq : v.walletAddress = key := by simpa using hpv
      simp [heq]
  · rw [if_neg h]
    have hnone : users.find? (fun u => u.walletAddress == key) = none := by
      rw [List.find?_eq_none]
      intro x hx hpx
      exact h (List.any_eq_true.mpr ⟨x, hx, hpx⟩)
    rw [List.find?_append, hnone]
    simp

/-- C9: with both addresses present, `/api/save-referral` appends exactly one
referral edge (even when referred = referrer) and increments the referrer's
stored referral count by one, creating the user record at count 1 when
absent; with either address missing the response is a 400 and the database is
unchanged. -/
theorem saveReferral_spec (db : DB) (body : ReferralBody) (t : Nat) :
    (∀ r d, body.referrer = some r → r ≠ "" → body.referred = some d → d ≠ "" →
      saveReferral true body t db =
        ({ db with
            referrals := db.referrals ++
              [{ referrer := jsLower r, referred := jsLower d,
                 level := jsOrNum body.level 1, rewardAmount := jsOrNum body.rewardAmount 0,
                 createdAt := t }]
            users := incReferralCount (jsLower r) t db.users },
         { status := 200, success := true, message := "Referral saved successfully" }) ∧
      ((incReferralCount (jsLower r) t db.users).find?
          (fun u => u.walletAddress == jsLower r)).map (fun u => u.referralCount) =
        some (((db.users.find? (fun u => u.walletAddress == jsLower r)).map
          (fun u => u.referralCount)).getD 0 + 1)) ∧
    (¬ (truthy body.referrer = true ∧ truthy body.referred = true) →
      saveReferral true body t db =
        (db, { status := 400, success := false,
               message := "Referrer and referred addresses are required" })) := by
  constructor
  · intro r d hr hrne hd hdne
    refine ⟨?_, incReferralCount_count (jsLower r) t db.users⟩
    simp [saveReferral, hr, hd, truthy, hrne, hdne]
  · intro h
    have hfail : (truthy body.referrer && truthy body.referred) = false := by
      cases h1 : truthy body.referrer with
      | false => simp
      | true =>
        cases h2 : truthy body.referred with
        | false => simp
        | true => exact absurd ⟨h1, h2⟩ h
    simp [saveReferral, hfail]

/-- Witness for the C9 theorem: a concrete self-referral inserts one edge and
sets the fresh referrer record's count to 1; a referral without a referred
address is a 400 no-op. -/
theorem saveReferral_spec_witness :
    (saveReferral true
        { referrer := some "0xR", referred := some "0xR", level := some 0,
          rewardAmount := none } 3 emptyDB =
      ({ emptyDB with
          referrals := [{ referrer := jsLower "0xR", referred := jsLower "0xR",
                          level := jsOrNum (some 0) 1, rewardAmount := jsOrNum none 0,
                          createdAt := 3 }]
          users := incReferralCount (jsLower "0xR") 3 emptyDB.users },
       { status := 200, success := true, message := "Referral saved successfully" })) ∧
    (((incReferralCount (jsLower "0xR") 3 emptyDB.users).find?
        (fun u => u.walletAddress == jsLower "0xR")).map (fun u => u.referralCount) =
      some (1 : Nat)) ∧
    (saveReferral true
        { referrer := some "0xR", referred := none, level := none, rewardAmount := none }
        3 emptyDB =
      (emptyDB, { status := 400, success := false,
                  message := "Referrer and referred addresses are required" })) := by
  obtain ⟨h1, h2⟩ := (saveReferral_spec emptyDB
    { referrer := some "0xR", referred := some "0xR", level := some 0, rewardAmount := none }
    3).1 "0xR" "0xR" rfl (by decide) rfl (by decide)
  refine ⟨h1, ?_, ?_⟩
  · rw [h2]; rfl
  · exact (saveReferral_spec emptyDB
      { referrer := some "0xR", referred := none, level := none, rewardAmount := none }
      3).2 (by simp [truthy])

/-- Lowercasing a string yields the empty string only for the empty string. -/
theorem jsLower_eq_empty_iff (s : String) : jsLower s = "" ↔ s = "" := by
  constructor
  · intro h
    cases s with
    | mk data =>
      cases data with
      | nil => rfl
      | cons a l =>
        exfalso
        rw [show ("" : String) = ⟨[]⟩ from by decide] at h
        simp only [jsLower] at h
        injection h with hd
        simp at hd
  · intro h
    rw [h]
    decide

/-- C1: a `POST /api/save-claim` for a wallet that already has a claim record
answers success with `alreadyClaimed: true` and leaves the whole database
(in particular the Claim collection) unchanged. -/
theorem saveClaim_alreadyClaimed (db : DB) (body : ClaimBody) (w : String) (t : Nat)
    (hw : body.walletAddress = some w) (hne : w ≠ "")
    (hex : ∃ c ∈ db.claims, c.walletAddress = jsLower w) :
    saveClaim true body t db =
      (db, { status := 200, success := true,
             message := "Claim already exists for this wallet", alreadyClaimed := true }) := by
  obtain ⟨c, hc, hcw⟩ := hex
  have hfind : db.claims.find? (fun x => x.walletAddress == jsLower w) ≠ none := by
    intro hn
    have hall := List.find?_eq_none.mp hn c hc
    simp [hcw] at hall
  obtain ⟨x, hx⟩ := Option.ne_none_iff_exists'.mp hfind
  simp [saveClaim, hw, truthy, hne, hx]

/-- Witness for the C1 theorem: a second save for a differently-cased version
of an already-claimed wallet is an `alreadyClaimed` no-op. -/
theorem saveClaim_alreadyClaimed_witness :
    saveClaim true
      { walletAddress := some "0xAbC", usdtBalance := some 9, airdropAmount := some 9,
        tier := some "T2", referrer := none, txHash := none } 20
      { users := [],
        claims := [{ walletAddress := "0xabc", usdtBalance := 5, airdropAmount := 7,
                     tier := "Gold", referrer := none, txHash := "pending",
                     claimedAt := 10, status := "claimed" }],
        referrals := [], settings := none } =
      ({ users := [],
         claims := [{ walletAddress := "0xabc", usdtBalance := 5, airdropAmount := 7,
                      tier := "Gold", referrer := none, txHash := "pending",
                      claimedAt := 10, status := "claimed" }],
         referrals := [], settings := none },
       { status := 200, success := true,
         message := "Claim already exists for this wallet", alreadyClaimed := true }) := by
  refine saveClaim_alreadyClaimed _ _ "0xAbC" 20 rfl (by decide) ?_
  refine ⟨{ walletAddress := "0xabc", usdtBalance := 5, airdropAmount := 7,
            tier := "Gold", referrer := none, txHash := "pending",
            claimedAt := 10, status := "claimed" }, ?_, ?_⟩
  · exact List.mem_singleton.mpr rfl
  · decide

/-- After a successful-path `POST /api/save-claim` for wallet `w` a claim
record keyed by the lowercased `w` is present (either it was already there,
or the handler just inserted it). -/
theorem saveClaim_mem (db : DB) (body : ClaimBody) (w : String) (t : Nat)
    (hw : body.walletAddress = some w) (hne : w ≠ "") (ht : truthy body.tier = true) :
    ∃ c ∈ (saveClaim true body t db).1.claims, c.walletAddress = jsLower w := by
  have ht1 : truthy (some w) = true := truthy_some w hne
  cases hfind : db.claims.find? (fun c => c.walletAddress == jsLower w) with
  | some c =>
    have hc := List.mem_of_find?_eq_some hfind
    have hpc0 := List.find?_some hfind
    have hpc : (c.walletAddress == jsLower w) = true := hpc0
    refine ⟨c, ?_, by simpa using hpc⟩
    simp [saveClaim, hw, truthy, hne, hfind]
    exact hc
  | none =>
    obtain ⟨tr, htr, htrne⟩ : ∃ tr, body.tier = some tr ∧ tr ≠ "" := by
      cases hbt : body.tier with
      | none => rw [hbt] at ht; simp [truthy] at ht
      | some s =>
        refine ⟨s, rfl, ?_⟩
        rw [hbt] at ht
        simpa [truthy] using ht
    simp [saveClaim, hw, truthy, hne, hfind, htr, htrne]
    exact ⟨_, Or.inr rfl, rfl⟩

/-- C10: claim-status lookup is case-insensitive relative to a saved claim:
after a `POST /api/save-claim` for wallet `w` (on the success or
already-claimed path), `GET /api/claim-status` with any casing `v` of `w`
reports `hasClaimed: true`, because both the stored key and the lookup key
are lowercased. -/
theorem claimStatus_case_insensitive (db : DB) (body : ClaimBody) (w v : String) (t : Nat)
    (hw : body.walletAddress = some w) (hne : w ≠ "") (ht : truthy body.tier = true)
    (hv : jsLower v = jsLower w) :
    (claimStatus true v (saveClaim true body t db).1).hasClaimed = true := by
  have hvne : v ≠ "" := by
    intro he
    apply hne
    have h1 : jsLower w = "" := by
      rw [← hv, he]
      decide
    exact (jsLower_eq_empty_iff w).mp h1
  obtain ⟨c, hc, hcw⟩ := saveClaim_mem db body w t hw hne ht
  have hfind : ((saveClaim true body t db).1.claims.find?
      (fun c => c.walletAddress == jsLower v)).isSome := by
    rw [hv, List.find?_isSome]
    exact ⟨c, hc, by simp [hcw]⟩
  simp [claimStatus, hvne, hfind]

/-- Witness for the C10 theorem: save with mixed case, read back with a
different casing. -/
theorem claimStatus_case_insensitive_witness :
    (claimStatus true "0xaBc"
      (saveClaim true
        { walletAddress := some "0xAbC", usdtBalance := some 5, airdropAmount := some 7,
          tier := some "Gold", referrer := none, txHash := none } 10 emptyDB).1).hasClaimed =
      true :=
  claimStatus_case_insensitive emptyDB
    { walletAddress := some "0xAbC", usdtBalance := some 5, airdropAmount := some 7,
      tier := some "Gold", referrer := none, txHash := none }
    "0xAbC" "0xaBc" 10 rfl (by decide) (by decide) (by decide)

/-- C4 counterexample: the claim promises that after two saves the record
holds the values supplied in the latest call, but a supplied falsy (empty)
`usdtBalance` in the second call is ignored in favour of the first call's
value (`usdtBalance || user.usdtBalance`). -/
theorem saveApproval_latest_value_cex :
    ((saveApproval true
        { walletAddress := some "0xaaa", usdtBalance := some "",
          airdropAmount := some "7", tier := some "Silver" } 20
        (saveApproval true
          { walletAddress := some "0xaaa", usdtBalance := some "100",
            airdropAmount := some "5", tier := some "Gold" } 10 emptyDB).1).1.users.map
      (fun u => u.usdtBalance) = [some "100"]) ∧
    (some "" : Option String) ≠ some "100" := by
  exact ⟨by decide, by decide⟩

/-- Replacing every key-matching element of a key-free list and appending the
replacement, then filtering for the key, keeps exactly the replacement. -/
theorem filter_key_map_append (w : String) (users : List UserRec) (u1' : UserRec)
    (hnotin : ∀ x ∈ users, (x.walletAddress == w) = false)
    (hu1' : u1'.walletAddress = w) :
    ((users.map (fun x => if x.walletAddress == w then u1' else x)) ++ [u1']).filter
      (fun u => u.walletAddress == w) = [u1'] := by
  rw [List.filter_append]
  have hmapid : users.map (fun x => if x.walletAddress == w then u1' else x) = users := by
    have h1 : users.map (fun x => if x.walletAddress == w then u1' else x) = users.map id :=
      List.map_congr_left (fun x hx => by simp [hnotin x hx])
    rw [h1, List.map_id]
  rw [hmapid]
  have hfilnil : users.filter (fun u => u.walletAddress == w) = [] :=
    List.filter_eq_nil_iff.mpr (fun a ha => by simp [hnotin a ha])
  rw [hfilnil]
  simp [hu1']

/-- C4 (amended): two `POST /api/save-approval` calls for the same (fresh)
wallet leave exactly one User record for it; each of `usdtBalance`,
`airdropAmount`, `tier` holds the second call's value when that value is
truthy and otherwise retains the first call's value; `approvalGiven` is true
and the approval timestamp is the second call's. -/
theorem saveApproval_twice (db : DB) (b1 b2 : ApprovalBody) (w : String) (t1 t2 : Nat)
    (hw1 : b1.walletAddress = some w) (hw2 : b2.walletAddress = some w) (hne : w ≠ "")
    (hfresh : db.users.find? (fun u => u.walletAddress == w) = none) :
    ((saveApproval true b2 t2 (saveApproval true b1 t1 db).1).1.users.filter
        (fun u => u.walletAddress == w)) =
      [{ walletAddress := w,
         usdtBalance := jsOrOpt b2.usdtBalance b1.usdtBalance,
         airdropAmount := jsOrOpt b2.airdropAmount b1.airdropAmount,
         referralCount := 0, approvalGiven := true, approvalTimestamp := some t2,
         tier := jsOrOpt b2.tier b1.tier, createdAt := t1 }] ∧
    (saveApproval true b2 t2 (saveApproval true b1 t1 db).1).2.status = 200 := by
  have hnotin : ∀ x ∈ db.users, (x.walletAddress == w) = false := by
    intro x hx
    have := List.find?_eq_none.mp hfresh x hx
    simpa using this
  have hstep1 : (saveApproval true b1 t1 db).1 =
      { db with users := db.users ++
          [({ walletAddress := w, usdtBalance := b1.usdtBalance,
              airdropAmount := b1.airdropAmount, referralCount := 0,
              approvalGiven := true, approvalTimestamp := some t1,
              tier := b1.tier, createdAt := t1 } : UserRec)] } := by
    simp [saveApproval, hw1, truthy, hne, hfresh]
  rw [hstep1]
  constructor
  · have hstep2 : (saveApproval true b2 t2
        { db with users := db.users ++
            [({ walletAddress := w, usdtBalance := b1.usdtBalance,
                airdropAmount := b1.airdropAmount, referralCount := 0,
                approvalGiven := true, approvalTimestamp := some t1,
                tier := b1.tier, createdAt := t1 } : UserRec)] }).1.users =
        db.users.map
          (fun x => if x.walletAddress == w then
            ({ walletAddress := w,
               usdtBalance := jsOrOpt b2.usdtBalance b1.usdtBalance,
               airdropAmount := jsOrOpt b2.airdropAmount b1.airdropAmount,
               referralCount := 0, approvalGiven := true, approvalTimestamp := some t2,
               tier := jsOrOpt b2.tier b1.tier, createdAt := t1 } : UserRec) else x) ++
          [({ walletAddress := w,
              usdtBalance := jsOrOpt b2.usdtBalance b1.usdtBalance,
              airdropAmount := jsOrOpt b2.airdropAmount b1.airdropAmount,
              referralCount := 0, approvalGiven := true, approvalTimestamp := some t2,
              tier := jsOrOpt b2.tier b1.tier, createdAt := t1 } : UserRec)] := by
      simp [saveApproval, hw2, truthy, hne, hfresh]
    rw [hstep2]
    exact filter_key_map_append w db.users
      { walletAddress := w,
        usdtBalance := jsOrOpt b2.usdtBalance b1.usdtBalance,
        airdropAmount := jsOrOpt b2.airdropAmount b1.airdropAmount,
        referralCount := 0, approvalGiven := true, approvalTimestamp := some t2,
        tier := jsOrOpt b2.tier b1.tier, createdAt := t1 } hnotin rfl
  · simp [saveApproval, hw2, truthy, hne, hfresh]

/-- Witness for the amended C4 theorem at concrete bodies: the second call
supplies an empty balance string, so the stored balance stays the first
call's; tier and airdrop amount take the second call's truthy values. -/
theorem saveApproval_twice_witness :
    ((saveApproval true
        { walletAddress := some "0xaaa", usdtBalance := some "",
          airdropAmount := some "7", tier := some "Silver" } 20
        (saveApproval true
          { walletAddress := some "0xaaa", usdtBalance := some "100",
            airdropAmount := some "5", tier := some "Gold" } 10 emptyDB).1).1.users.filter
      (fun u => u.walletAddress == "0xaaa")) =
      [{ walletAddress := "0xaaa",
         usdtBalance := jsOrOpt (some "") (some "100"),
         airdropAmount := jsOrOpt (some "7") (some "5"),
         referralCount := 0, approvalGiven := true, approvalTimestamp := some 20,
         tier := jsOrOpt (some "Silver") (some "Gold"), createdAt := 10 }] ∧
    (saveApproval true
        { walletAddress := some "0xaaa", usdtBalance := some "",
          airdropAmount := some "7", tier := some "Silver" } 20
        (saveApproval true
          { walletAddress := some "0xaaa", usdtBalance := some "100",
            airdropAmount := some "5", tier := some "Gold" } 10 emptyDB).1).2.status = 200 :=
  saveApproval_twice emptyDB
    { walletAddress := some "0xaaa", usdtBalance := some "100",
      airdropAmount := some "5", tier := some "Gold" }
    { walletAddress := some "0xaaa", usdtBalance := some "",
      airdropAmount := some "7", tier := some "Silver" }
    "0xaaa" 10 20 rfl rfl (by decide) rfl

/-- Mapping a wallet-address-preserving function over the users keeps the
key list's freedom from duplicates. -/
theorem nodup_keys_map_of_preserve (users : List UserRec) (f : UserRec → UserRec)
    (hf : ∀ x ∈ users, (f x).walletAddress = x.walletAddress)
    (h : (users.map (fun u => u.walletAddress)).Nodup) :
    ((users.map f).map (fun u => u.walletAddress)).Nodup := by
  rw [List.map_map]
  have heq : users.map ((fun u => u.walletAddress) ∘ f) = users.map (fun u => u.walletAddress) :=
    List.map_congr_left (fun x hx => hf x hx)
  rw [heq]
  exact h

/-- Appending one user whose key is absent from the list keeps the key list
free of duplicates. -/
theorem nodup_keys_append (users : List UserRec) (u1 : UserRec) (key : String)
    (hk : u1.walletAddress = key)
    (hnot : ∀ x ∈ users, ¬ ((x.walletAddress == key) = true))
    (h : (users.map (fun u => u.walletAddress)).Nodup) :
    ((users ++ [u1]).map (fun u => u.walletAddress)).Nodup := by
  rw [List.map_append, List.nodup_append]
  refine ⟨h, List.nodup_singleton _, ?_⟩
  intro a ha hb
  rw [List.map_singleton, List.mem_singleton] at hb
  subst hb
  obtain ⟨x, hx, hxa⟩ := List.mem_map.mp ha
  exact hnot x hx (by simp [hxa, hk])

/-- The `/api/save-claim` user upsert keeps user keys duplicate-free. -/
theorem keys_upsertDefaultUser (key : String) (now : Nat) (users : List UserRec)
    (h : (users.map (fun u => u.walletAddress)).Nodup) :
    ((upsertDefaultUser key now users).map (fun u => u.walletAddress)).Nodup := by
  unfold upsertDefaultUser
  split
  · exact h
  · rename_i hany
    exact nodup_keys_append users _ key rfl
      (fun x hx hp => hany (List.any_eq_true.mpr ⟨x, hx, hp⟩)) h

/-- The `/api/save-referral` counter upsert keeps user keys duplicate-free. -/
theorem keys_incReferralCount (key : String) (now : Nat) (users : List UserRec)
    (h : (users.map (fun u => u.walletAddress)).Nodup) :
    ((incReferralCount key now users).map (fun u => u.walletAddress)).Nodup := by
  unfold incReferralCount
  split
  · exact nodup_keys_map_of_preserve users _ (fun x hx => by
      by_cases hxk : (x.walletAddress == key) = true <;> simp [hxk]) h
  · rename_i hany
    exact nodup_keys_append users _ key rfl
      (fun x hx hp => hany (List.any_eq_true.mpr ⟨x, hx, hp⟩)) h

/-- Every single API call keeps the user keys duplicate-free. -/
theorem keys_applyCall (c : ApiCall) (db : DB) (h : (userKeys db).Nodup) :
    (userKeys (applyCall c db)).Nodup := by
  cases c with
  | approval conn body now =>
    simp only [applyCall, saveApproval, userKeys] at h ⊢
    split
    · exact h
    split
    · exact h
    split
    · rename_i u heq
      have hu0 := List.find?_some heq
      have hu : u.walletAddress = body.walletAddress.getD "" := by simpa using hu0
      exact nodup_keys_map_of_preserve db.users _ (fun x hx => by
        by_cases hxk : (x.walletAddress == body.walletAddress.getD "") = true
        · have hx2 : x.walletAddress = body.walletAddress.getD "" := by simpa using hxk
          simp only [hxk, if_true]
          rw [hu, hx2]
        · simp [hxk]) h
    · rename_i heq
      exact nodup_keys_append db.users _ (body.walletAddress.getD "") rfl
        (fun x hx hp => (List.find?_eq_none.mp heq x hx) hp) h
  | claim conn body now =>
    simp only [applyCall, saveClaim, userKeys] at h ⊢
    split
    · exact h
    split
    · exact h
    split
    · exact h
    split
    · exact h
    · exact keys_upsertDefaultUser _ _ _ h
  | referral conn body now =>
    simp only [applyCall, saveReferral, userKeys] at h ⊢
    split
    · exact h
    split
    · exact h
    · exact keys_incReferralCount _ _ _ h
  | updateWallet conn secret body now =>
    simp only [applyCall, updateApprovalWallet, userKeys] at h ⊢
    split
    · exact h
    split
    · exact h
    split
    · exact h
    · exact h

/-- C5: in every database state reachable from the empty store by any
sequence of API calls, User wallet-address keys are pairwise distinct: at
most one User record per wallet address. -/
theorem users_unique_per_wallet (calls : List ApiCall) :
    (userKeys (runCalls calls emptyDB)).Nodup := by
  suffices hgen : ∀ (cs : List ApiCall) (db : DB),
      (userKeys db).Nodup → (userKeys (runCalls cs db)).Nodup by
    exact hgen calls emptyDB (by simp [userKeys, emptyDB])
  intro cs
  induction cs with
  | nil => intro db h; exact h
  | cons c cs ih =>
    intro db h
    exact ih (applyCall c db) (keys_applyCall c db h)

/-- The natural-number formula `(t + l - 1) / l` used by the handlers is the
ceiling of the rational `t / l`. -/
theorem natCeilDiv_eq_ceil (t l : Nat) (hl : 1 ≤ l) :
    (((t + l - 1) / l : Nat) : ℤ) = ⌈(t : ℚ) / (l : ℚ)⌉ := by
  have hl0 : 0 < l := hl
  have hlq : (0 : ℚ) < (l : ℚ) := by exact_mod_cast hl0
  rw [← Nat.ceilDiv_eq_add_pred_div]
  apply le_antisymm
  · have hnn : (0 : ℤ) ≤ ⌈(t : ℚ) / l⌉ := by
      apply Int.ceil_nonneg
      positivity
    have hcz : (⌈(t : ℚ) / l⌉.toNat : ℤ) = ⌈(t : ℚ) / l⌉ := Int.toNat_of_nonneg hnn
    have hdc : t ⌈/⌉ l ≤ ⌈(t : ℚ) / l⌉.toNat := by
      rw [ceilDiv_le_iff_le_mul hl0]
      have h1 : (t : ℚ) / l ≤ (⌈(t : ℚ) / l⌉.toNat : ℚ) := by
        calc (t : ℚ) / l ≤ (⌈(t : ℚ) / l⌉ : ℚ) := Int.le_ceil _
        _ = ((⌈(t : ℚ) / l⌉.toNat : ℤ) : ℚ) := by rw [hcz]
        _ = (⌈(t : ℚ) / l⌉.toNat : ℚ) := by push_cast; ring
      have h2 : (t : ℚ) ≤ (l : ℚ) * (⌈(t : ℚ) / l⌉.toNat : ℚ) := by
        rw [div_le_iff₀ hlq] at h1
        calc (t : ℚ) ≤ (⌈(t : ℚ) / l⌉.toNat : ℚ) * l := h1
        _ = (l : ℚ) * _ := mul_comm _ _
      exact_mod_cast h2
    calc ((t ⌈/⌉ l : ℕ) : ℤ) ≤ (⌈(t : ℚ) / l⌉.toNat : ℤ) := by exact_mod_cast hdc
    _ = ⌈(t : ℚ) / l⌉ := hcz
  · rw [Int.ceil_le]
    have h2 : t ≤ l • (t ⌈/⌉ l) := le_smul_ceilDiv hl0
    rw [smul_eq_mul] at h2
    rw [div_le_iff₀ hlq]
    calc (t : ℚ) ≤ (l : ℚ) * ((t ⌈/⌉ l : ℕ) : ℚ) := by exact_mod_cast h2
    _ = (((t ⌈/⌉ l : ℕ) : ℤ) : ℚ) * l := by push_cast; ring

/-- C7: on `/api/admin/claims` and `/api/admin/approvals` with numeric `page`
and `limit` parameters (both at least 1), the returned record list has length
at most `limit`, and the response's `pages` equals
`Math.ceil(total / limit)` where `total` counts the records matching the
filter; the final conjunct identifies the handlers' natural-number formula
with the rational ceiling. -/
theorem admin_list_pagination (db : DB) (cq : PageQuery) (aq : ApprovalsQuery)
    (page limit : Nat) (_hp : 1 ≤ page) (hl : 1 ≤ limit)
    (hcp : cq.page = some page) (hcl : cq.limit = some limit)
    (hap : aq.page = some page) (hal : aq.limit = some limit) :
    (∃ rows, (adminClaimsHandler cq db).data = some rows ∧ rows.length ≤ limit) ∧
    ((adminClaimsHandler cq db).pageInfo =
      some { page := page, limit := limit,
             total := (db.claims.filter (claimMatch cq.search)).length,
             pages := some
               (((db.claims.filter (claimMatch cq.search)).length + limit - 1) / limit) }) ∧
    (∃ rows, (adminApprovalsHandler aq db).data = some rows ∧ rows.length ≤ limit) ∧
    ((adminApprovalsHandler aq db).pageInfo =
      some { page := page, limit := limit,
             total := (db.users.filter (approvalMatch aq.search aq.tier)).length,
             pages := some
               (((db.users.filter (approvalMatch aq.search aq.tier)).length + limit - 1) /
                 limit) }) ∧
    (∀ total : Nat, (((total + limit - 1) / limit : Nat) : ℤ) = ⌈(total : ℚ) / (limit : ℚ)⌉) := by
  have hlne : limit ≠ 0 := by omega
  refine ⟨?_, ?_, ?_, ?_, fun total => natCeilDiv_eq_ceil total limit hl⟩
  · refine ⟨_, rfl, ?_⟩
    simp only [adminClaimsHandler, hcl, Option.getD_some, applyLimit, if_neg hlne]
    exact List.length_take_le limit _
  · simp [adminClaimsHandler, hcp, hcl, jsCeilDiv, hlne]
  · refine ⟨_, rfl, ?_⟩
    simp only [adminApprovalsHandler, hal, Option.getD_some, applyLimit, if_neg hlne]
    exact List.length_take_le limit _
  · simp [adminApprovalsHandler, hap, hal, jsCeilDiv, hlne]

/-- Witness for the C7 theorem on a concrete store with five claims and three
approved users, `page = 1`, `limit = 2`. -/
theorem admin_list_pagination_witness :
    let dbW : DB :=
      { users :=
          [{ walletAddress := "0xu1", usdtBalance := some "10", airdropAmount := none,
             referralCount := 0, approvalGiven := true, approvalTimestamp := some 1,
             tier := some "T", createdAt := 0 },
           { walletAddress := "0xu2", usdtBalance := some "20", airdropAmount := none,
             referralCount := 0, approvalGiven := true, approvalTimestamp := some 2,
             tier := some "T", createdAt := 0 },
           { walletAddress := "0xu3", usdtBalance := some "30", airdropAmount := none,
             referralCount := 0, approvalGiven := true, approvalTimestamp := some 3,
             tier := some "T", createdAt := 0 }],
        claims :=
          [{ walletAddress := "0xc1", usdtBalance := 1, airdropAmount := 1, tier := "T",
             referrer := none, txHash := "p", claimedAt := 1, status := "claimed" },
           { walletAddress := "0xc2", usdtBalance := 2, airdropAmount := 2, tier := "T",
             referrer := none, txHash := "p", claimedAt := 2, status := "claimed" },
           { walletAddress := "0xc3", usdtBalance := 3, airdropAmount := 3, tier := "T",
             referrer := none, txHash := "p", claimedAt := 3, status := "claimed" },
           { walletAddress := "0xc4", usdtBalance := 4, airdropAmount := 4, tier := "T",
             referrer := none, txHash := "p", claimedAt := 4, status := "claimed" },
           { walletAddress := "0xc5", usdtBalance := 5, airdropAmount := 5, tier := "T",
             referrer := none, txHash := "p", claimedAt := 5, status := "claimed" }],
        referrals := [], settings := none }
    let cqW : PageQuery := { page := some 1, limit := some 2, search := none }
    let aqW : ApprovalsQuery := { page := some 1, limit := some 2, search := none, tier := none }
    (∃ rows, (adminClaimsHandler cqW dbW).data = some rows ∧ rows.length ≤ 2) ∧
    ((adminClaimsHandler cqW dbW).pageInfo =
      some { page := 1, limit := 2,
             total := (dbW.claims.filter (claimMatch cqW.search)).length,
             pages := some
               (((dbW.claims.filter (claimMatch cqW.search)).length + 2 - 1) / 2) }) ∧
    (∃ rows, (adminApprovalsHandler aqW dbW).data = some rows ∧ rows.length ≤ 2) ∧
    ((adminApprovalsHandler aqW dbW).pageInfo =
      some { page := 1, limit := 2,
             total := (dbW.users.filter (approvalMatch aqW.search aqW.tier)).length,
             pages := some
               (((dbW.users.filter (approvalMatch aqW.search aqW.tier)).length + 2 - 1) /
                 2) }) ∧
    (∀ total : Nat, (((total + 2 - 1) / 2 : Nat) : ℤ) = ⌈(total : ℚ) / (2 : ℚ)⌉) := by
  intro dbW cqW aqW
  exact admin_list_pagination dbW cqW aqW 1 2 (by decide) (by decide) rfl rfl rfl rfl

end ShibAirdrop
